import Mathlib

/-
Verification of the vTeam runner session-transport and streaming-orchestration
engine against its natural-language specification.

The definitions below are a shallow embedding of the Python sources:
  components/runners/runner-shell/runner_shell/core/shell.py        (RunnerShell)
  components/runners/runner-shell/runner_shell/core/transport_ws.py (WebSocketTransport)
  components/runners/claude-code-runner/wrapper.py                  (ClaudeCodeAdapter)
  components/runners/claude-code-runner/observability.py            (ObservabilityManager)

Pure data flow is translated into Lean functions; the stateful loops are
translated into explicit state passing over finite event lists (each list
models the finite sequence of events actually delivered to the loop).
-/

/-! ## Protocol (protocol.py)

`MessageType` mirrors the `MessageType(str, Enum)` of protocol.py. The wire
value of each variant is recorded by `MessageType.wire`. -/

inductive MessageType where
  | system_message
  | agent_message
  | user_message
  | partialMessage
  | agent_running
  | waiting_for_input
deriving DecidableEq, Repr

def MessageType.wire : MessageType → String
  | .system_message => "system.message"
  | .agent_message => "agent.message"
  | .user_message => "user.message"
  | .partialMessage => "message.partial"
  | .agent_running => "agent.running"
  | .waiting_for_input => "agent.waiting"

/-! ## RunnerShell sequence numbers (shell.py)

`RunnerShell.__init__` sets `self.message_seq = 0`; `_send_message` executes
`self.message_seq += 1` and then builds the outgoing `Message` with
`seq=self.message_seq`.  `shellSend` is that step: it returns the new shell
counter state together with the `seq` assigned to the emitted message.
`shellSendSeqs` is the list of `seq` values assigned by `n` consecutive
`_send_message` calls starting from counter state `s`. -/

def shellInitSeq : Nat := 0

def shellSend (message_seq : Nat) : Nat × Nat :=
  let seq := message_seq + 1
  (seq, seq)

def shellSendSeqs (s : Nat) : Nat → List Nat
  | 0 => []
  | n + 1 =>
    let r := shellSend s
    r.2 :: shellSendSeqs r.1 n

/-! ## RunnerShell lifecycle (shell.py, RunnerShell.start)

`start` emits the system message "session.started", then runs
`adapter.initialize(context)` and `adapter.run()` inside a `try`:
if both return, it emits "session.completed"; if either raises, the
`except` clause emits "session.failed" (and re-raises).  The initialize and
run outcomes are modelled as `Except` values (`Except.error` = the Python
call raised). -/

def shellStart (initOutcome : Except String Unit) (runOutcome : Except String Bool) :
    List (MessageType × String) :=
  (MessageType.system_message, "session.started") ::
    (match initOutcome with
     | .error _ => [(MessageType.system_message, "session.failed")]
     | .ok _ =>
       match runOutcome with
       | .error _ => [(MessageType.system_message, "session.failed")]
       | .ok _ => [(MessageType.system_message, "session.completed")])

/-- Outcome of the inner body of `ClaudeCodeAdapter.run` (wrapper.py):
either the SDK run loop finished and produced a result dict whose
`success` field is recorded, or some exception was raised inside the body. -/
inductive SdkRunOutcome where
  | finished (success : Bool)
  | raised (msg : String)
deriving DecidableEq, Repr

/-- Model of `ClaudeCodeAdapter.run` (wrapper.py lines 110-183): the whole
body sits in a `try` whose `except Exception` clause returns
`{"success": False, "error": ...}` instead of re-raising, so `run` never
propagates an exception to the shell; a failed run surfaces only as a
returned result whose success flag is `false`. -/
def adapterRun : SdkRunOutcome → Except String Bool
  | .finished b => .ok b
  | .raised _ => .ok false

/-! ## WebSocketTransport (transport_ws.py)

`connect` attempts the websocket handshake; every failure path (the
`InvalidStatusCode` branch used for auth rejection, and the generic branch)
logs and re-`raise`s, so the error propagates to the caller.
`RunnerShell.start` calls `transport.connect()` exactly once and has no
retry logic around it.  `_reconnect` loops `while self.running`, calling
`connect` and catching every exception, sleeping and retrying until a
connect succeeds. -/

inductive ConnectOutcome where
  | connected
  | authRejected (status : Nat)
  | unreachable (msg : String)
deriving DecidableEq, Repr

/-- Model of `WebSocketTransport.connect`: success returns, every failure
(auth rejection or otherwise) is re-raised to the caller. -/
def connectAttempt : ConnectOutcome → Except ConnectOutcome Unit
  | .connected => .ok ()
  | .authRejected s => .error (.authRejected s)
  | .unreachable m => .error (.unreachable m)

/-- Model of the single `await self.transport.connect()` in
`RunnerShell.start`: one attempt, whose error (if any) propagates out of
`start`.  The first component counts connect attempts made by `start`. -/
def startConnect (o : ConnectOutcome) : Nat × Except ConnectOutcome Unit :=
  (1, connectAttempt o)

/-- Model of `WebSocketTransport._reconnect` while `running` stays true,
applied to the finite list of outcomes of the successive connect attempts:
each failing attempt is caught (`except Exception`) and retried; the loop
stops only when an attempt succeeds.  Returns (number of attempts made,
whether a connection was established within the given outcomes). -/
def reconnectRun : List ConnectOutcome → Nat × Bool
  | [] => (0, false)
  | o :: rest =>
    match connectAttempt o with
    | .ok _ => (1, true)
    | .error _ =>
      let r := reconnectRun rest
      (r.1 + 1, r.2)

/-! ## Adapter turn counter (wrapper.py, _run_claude_agent_sdk)

Line 453 of wrapper.py runs `self._turn_count = 0` at the top of every
`_run_claude_agent_sdk` call.  On each `ResultMessage` the stream handler
executes (lines 565-570):
  if sdk_num_turns is not None and sdk_num_turns > self._turn_count:
      self._turn_count = sdk_num_turns
`updateTurnCount` is that update; an event is `some n` for a
`ResultMessage` carrying `num_turns = n` and `none` for one without. -/

def updateTurnCount (cur : Nat) (sdkNumTurns : Option Nat) : Nat :=
  match sdkNumTurns with
  | some n => if n > cur then n else cur
  | none => cur

/-- The successive values of `self._turn_count` during one
`_run_claude_agent_sdk` call whose stream carries the given end-of-turn
`num_turns` events: the initial reset to 0 (line 453) followed by the value
after each `ResultMessage`. -/
def runTurnTrace (events : List (Option Nat)) : List Nat :=
  List.scanl updateTurnCount 0 events

/-- The successive values of `self._turn_count` over a whole session.
Each list element models one `_run_claude_agent_sdk` call: its stream of
end-of-turn `num_turns` events, and whether `_restart_requested` was set
when the call returned (a `workflow_change` / `repo_added` / `repo_removed`
control message sets the flag and breaks the interactive loop).  The outer
`while True` loop of `ClaudeCodeAdapter.run` (lines 139-152) re-invokes
`_run_claude_agent_sdk` exactly when the flag is set. -/
def sessionTurnTrace : List (List (Option Nat) × Bool) → List Nat
  | [] => []
  | (events, restartRequested) :: rest =>
    runTurnTrace events ++ (if restartRequested then sessionTurnTrace rest else [])

/-! ## Adapter inbound control handling (wrapper.py)

`ClaudeCodeAdapter.handle_message` (lines 1860-1870) enqueues an inbound
frame on `self._incoming_queue` exactly when its `type` field is one of
eight underscore-form strings, and otherwise only logs it. -/

def allowedControlTypes : List String :=
  ["user_message", "interrupt", "end_session", "terminate", "stop",
   "workflow_change", "repo_added", "repo_removed"]

/-- Model of `ClaudeCodeAdapter.handle_message`: true exactly when the
frame is placed on the control queue. -/
def handleMessageEnqueues (msgType : String) : Bool :=
  allowedControlTypes.contains msgType

/-- The dot-to-underscore normalization of the interactive loop
(wrapper.py line 667: `mtype_raw.replace('.', '_')`), applied character by
character as Python str.replace does for single characters. -/
def normalizeType (t : String) : String :=
  String.mk (t.data.map (fun c => if c = '.' then '_' else c))

/-- An inbound control frame as seen by the interactive loop: its raw
`type` string and its `payload` dict (modelled as a string-keyed
association list; only string values are consulted by the loop). -/
structure InMsg where
  ty : String
  payload : List (String × String)
deriving DecidableEq, Repr

def payloadGet (p : List (String × String)) (k : String) : String :=
  (p.lookup k).getD ""

/-- Python str.strip() on the character list of a string. -/
def stripChars (l : List Char) : List Char :=
  ((l.dropWhile Char.isWhitespace).reverse.dropWhile Char.isWhitespace).reverse

def strip (s : String) : String :=
  String.mk (stripChars s.data)

/-- Python `a or b` for strings: the first operand unless it is empty. -/
def firstNonEmpty (a b : String) : String :=
  if a = "" then b else a

/-- Text extraction of the `user_message` branch (wrapper.py line 670):
`str(payload.get('content') or payload.get('text') or '').strip()`. -/
def extractText (p : List (String × String)) : String :=
  strip (firstNonEmpty (payloadGet p "content") (payloadGet p "text"))

/-- The externally visible handling actions of one iteration of the
interactive loop (wrapper.py lines 663-704). -/
inductive LoopAction where
  | query (text : String)
  | endedLog
  | workflowSelected (gitUrl branch path : String)
  | workflowMissingUrl
  | repoAddedHandled
  | repoRemovedHandled
  | interruptSent
  | ignoredMsg (raw : String)
deriving DecidableEq, Repr

/-- Handling of a single dequeued control message, following the
`if/elif` chain of wrapper.py lines 666-704 in source order. -/
def handleOne (m : InMsg) : List LoopAction :=
  let t := normalizeType m.ty
  if t = "user_message" then
    let text := extractText m.payload
    if text = "" then [] else [LoopAction.query text]
  else if t = "end_session" ∨ t = "terminate" ∨ t = "stop" then
    [LoopAction.endedLog]
  else if t = "workflow_change" then
    let gitUrl := strip (payloadGet m.payload "gitUrl")
    let branch := strip (firstNonEmpty (payloadGet m.payload "branch") "main")
    let path := strip (payloadGet m.payload "path")
    if gitUrl = "" then [LoopAction.workflowMissingUrl]
    else [LoopAction.workflowSelected gitUrl branch path]
  else if t = "repo_added" then
    [LoopAction.repoAddedHandled]
  else if t = "repo_removed" then
    [LoopAction.repoRemovedHandled]
  else if t = "interrupt" then
    [LoopAction.interruptSent]
  else
    [LoopAction.ignoredMsg m.ty]

/-- Whether handling this message executes a `break` of the interactive
loop: `end_session`/`terminate`/`stop`, a `workflow_change` whose payload
carries a non-empty `gitUrl`, and `repo_added`/`repo_removed` do;
`user_message`, `interrupt`, a `workflow_change` without `gitUrl`, and
unrecognized types do not. -/
def breaksLoop (m : InMsg) : Bool :=
  let t := normalizeType m.ty
  (t = "end_session" ∨ t = "terminate" ∨ t = "stop") ∨
    (t = "workflow_change" ∧ strip (payloadGet m.payload "gitUrl") ≠ "") ∨
    t = "repo_added" ∨ t = "repo_removed"

/-- The control messages the interactive loop dequeues and handles, in
order, given the finite list of messages that arrive on the queue.  The
loop takes one message at a time from the FIFO queue (`await
self._incoming_queue.get()`), handles it completely, and only then
dequeues the next; it stops consuming at the first message whose handling
breaks the loop. -/
def loopProcessed : List InMsg → List InMsg
  | [] => []
  | m :: rest => if breaksLoop m then [m] else m :: loopProcessed rest

/-- The concatenated handling actions of the interactive loop over the
arriving control messages, in execution order. -/
def loopActions : List InMsg → List LoopAction
  | [] => []
  | m :: rest => handleOne m ++ (if breaksLoop m then [] else loopActions rest)

/-! ## Workspace preparation (wrapper.py, _prepare_workspace)

`prepareRepoCmds` is the sequence of git invocations issued for one repo of
a multi-repo configuration (wrapper.py lines 820-865), as argv lists, as a
function of whether the repo directory already exists (`repo_exists`),
whether the session reuses a prior workspace (`reusing_workspace`, i.e. a
continuation), the already-credentialled remote URL (the result of
`self._url_with_token(url, token) if token else url`), the branch, the
clone destination, the git identity, and the optional output remote URL.
`prepareSingleRepoCmds` is the single-repo legacy flow (lines 882-922). -/

def prepareRepoCmds (repoExists reusing : Bool) (authUrl branch repoDir : String)
    (userName userEmail : String) (outputUrl : Option String) : List (List String) :=
  (if repoExists = false then
    [["git", "clone", "--branch", branch, "--single-branch", authUrl, repoDir],
     ["git", "remote", "set-url", "origin", authUrl]]
   else if reusing then
    [["git", "remote", "set-url", "origin", authUrl]]
   else
    [["git", "remote", "set-url", "origin", authUrl],
     ["git", "fetch", "origin", branch],
     ["git", "checkout", branch],
     ["git", "reset", "--hard", "origin/" ++ branch]])
  ++ [["git", "config", "user.name", userName],
      ["git", "config", "user.email", userEmail]]
  ++ (match outputUrl with
      | none => []
      | some outUrl =>
        [["git", "remote", "remove", "output"],
         ["git", "remote", "add", "output", outUrl]])

def prepareSingleRepoCmds (workspaceHasGit reusing : Bool) (authUrl branch workspaceDir : String)
    (userName userEmail : String) (outputUrl : Option String) : List (List String) :=
  (if workspaceHasGit = false then
    [["git", "clone", "--branch", branch, "--single-branch", authUrl, workspaceDir],
     ["git", "remote", "set-url", "origin", authUrl]]
   else if reusing then
    [["git", "remote", "set-url", "origin", authUrl]]
   else
    [["git", "remote", "set-url", "origin", authUrl],
     ["git", "fetch", "origin", branch],
     ["git", "checkout", branch],
     ["git", "reset", "--hard", "origin/" ++ branch]])
  ++ [["git", "config", "user.name", userName],
      ["git", "config", "user.email", userEmail]]
  ++ (match outputUrl with
      | none => []
      | some outUrl =>
        [["git", "remote", "remove", "output"],
         ["git", "remote", "add", "output", outUrl]])

/-- Git invocations that move the working tree to the remote tip:
`git fetch ...`, `git checkout ...`, `git reset ...`. -/
def isFetchCheckoutReset (c : List String) : Bool :=
  match c with
  | "git" :: sub :: _ => sub = "fetch" ∨ sub = "checkout" ∨ sub = "reset"
  | _ => false

def isFetchOrReset (c : List String) : Bool :=
  match c with
  | "git" :: sub :: _ => sub = "fetch" ∨ sub = "reset"
  | _ => false

def isRemoteSetUrl (c : List String) : Bool :=
  match c with
  | "git" :: "remote" :: "set-url" :: _ => true
  | _ => false

/-! ## Observability turn guard

`ObservabilityManager.start_turn` / `end_turn` are called by the wrapper
(wrapper.py lines 497 and 576) and exercised by the repository tests
(tests/test_duplicate_turn_prevention.py, tests/test_observability.py), but
their bodies are not present in src/observability.py. -/

/-- Modelled from the spec: the bodies of `ObservabilityManager.start_turn`
and `end_turn` are missing from src/components/runners/claude-code-runner/
observability.py (only their callers and tests are in src).  Per spec §4.3,
the manager tracks whether a turn is already open (`_current_turn_generation`,
the field the repository tests inspect) and ignores duplicate turn-start
signals until the corresponding turn-end signal is observed.
`tracesCreated` counts the Langfuse trace creations performed. -/
structure ObsState where
  currentTurnGeneration : Option Nat
  tracesCreated : Nat
deriving DecidableEq, Repr

/-- `ObservabilityManager.__init__`: no turn open, no traces created. -/
def obsInit : ObsState := ⟨none, 0⟩

/-- Modelled from the spec: `start_turn` opens a turn and creates its trace
only when no turn is currently open; a duplicate turn-start signal while a
turn is open is ignored. -/
def startTurnStep (s : ObsState) : ObsState :=
  match s.currentTurnGeneration with
  | some _ => s
  | none => ⟨some s.tracesCreated, s.tracesCreated + 1⟩

/-- Modelled from the spec: `end_turn` closes the open turn (clears
`_current_turn_generation`), so that the next turn-start signal opens a
fresh turn. -/
def endTurnStep (s : ObsState) : ObsState :=
  ⟨none, s.tracesCreated⟩

/-- Turn-delimiting signals of the agent response stream as consumed by
`process_response_stream` (wrapper.py): every `AssistantMessage` triggers an
unguarded `obs.start_turn(...)` call (line 497), and the `ResultMessage`
end-of-turn triggers `obs.end_turn(...)` (line 576). -/
inductive TurnSignal where
  | turnStart
  | turnEnd
deriving DecidableEq, Repr

def processSignals : ObsState → List TurnSignal → ObsState
  | s, [] => s
  | s, .turnStart :: rest => processSignals (startTurnStep s) rest
  | s, .turnEnd :: rest => processSignals (endTurnStep s) rest

/-! ## Conversation-continuation fallback (wrapper.py lines 606-627)

The first `ClaudeSDKClient` creation attempt may raise; the handler lowercases
the error text and, when it contains "no conversation found" or "session",
logs the degradation, sends the visible system message about starting fresh,
and makes exactly one more creation attempt with `continue_conversation`
disabled; any other creation error is re-raised. -/

def lowerChars (l : List Char) : List Char :=
  l.map Char.toLower

/-- Substring containment on character lists (Python `pat in s`). -/
def subChars (pat : List Char) : List Char → Bool
  | [] => pat.isEmpty
  | c :: rest => List.isPrefixOf pat (c :: rest) || subChars pat rest

/-- The error classification of wrapper.py line 620:
`"no conversation found" in error_str or "session" in error_str`, with
`error_str = str(resume_error).lower()`. -/
def isResumeError (msg : String) : Bool :=
  let e := lowerChars msg.data
  subChars ("no conversation found").data e || subChars ("session").data e

/-- Result of the guarded client-creation block: how many creation attempts
were made, whether the degradation fallback (warning log plus the visible
"Could not continue conversation, starting fresh..." system message) ran,
and the outcome: `Except.ok withContinueDisabled` when a client was created
(`true` exactly when the fallback disabled `continue_conversation`), or
`Except.error` with the exception that propagates out of the block. -/
structure CreateResult where
  attempts : Nat
  fallbackUsed : Bool
  outcome : Except String Bool
deriving Repr

/-- Model of wrapper.py lines 614-627, parametrized by the outcome of the
first creation attempt (with options as configured) and of the retry
attempt (with `continue_conversation` disabled). -/
def createClientWithFallback (first second : Except String Unit) : CreateResult :=
  match first with
  | .ok _ => ⟨1, false, .ok false⟩
  | .error e =>
    if isResumeError e then
      match second with
      | .ok _ => ⟨2, true, .ok true⟩
      | .error e2 => ⟨2, true, .error e2⟩
    else ⟨1, false, .error e⟩

/-! ## Helper lemmas -/

theorem shellSendSeqs_eq_range (n : Nat) : ∀ s : Nat, shellSendSeqs s n = List.range' (s + 1) n := by
  induction n with
  | zero => intro s; rfl
  | succ k ih =>
    intro s
    simp [shellSendSeqs, shellSend, List.range'_succ, ih]

theorem le_updateTurnCount (c : Nat) (o : Option Nat) : c ≤ updateTurnCount c o := by
  cases o with
  | none => simp [updateTurnCount]
  | some n =>
    simp only [updateTurnCount]
    split <;> omega

theorem scanl_head (b : Nat) (l : List (Option Nat)) :
    (List.scanl updateTurnCount b l).head? = some b := by
  cases l <;> simp [List.scanl]

theorem chain_le_scanl : ∀ (ev : List (Option Nat)) (c : Nat),
    List.Chain' (· ≤ ·) (List.scanl updateTurnCount c ev)
  | [], _ => by simp [List.scanl]
  | e :: es, c => by
    rw [List.scanl_cons, List.singleton_append, List.chain'_cons']
    refine ⟨?_, chain_le_scanl es (updateTurnCount c e)⟩
    intro y hy
    rw [scanl_head] at hy
    cases hy
    exact le_updateTurnCount c e

theorem loopProcessed_take : ∀ q : List InMsg, ∃ n, loopProcessed q = q.take n
  | [] => ⟨0, rfl⟩
  | m :: rest => by
    by_cases h : breaksLoop m = true
    · exact ⟨1, by simp [loopProcessed, h]⟩
    · obtain ⟨n, hn⟩ := loopProcessed_take rest
      exact ⟨n + 1, by simp [loopProcessed, h, hn]⟩

theorem loopActions_eq_bind : ∀ q : List InMsg, loopActions q = (loopProcessed q).flatMap handleOne
  | [] => rfl
  | m :: rest => by
    by_cases h : breaksLoop m = true
    · simp [loopActions, loopProcessed, h]
    · simp [loopActions, loopProcessed, h, loopActions_eq_bind rest]

theorem processSignals_append (l₁ l₂ : List TurnSignal) : ∀ s : ObsState,
    processSignals s (l₁ ++ l₂) = processSignals (processSignals s l₁) l₂ := by
  induction l₁ with
  | nil => intro s; rfl
  | cons sig rest ih =>
    intro s
    cases sig <;> simp [processSignals, ih]

theorem processSignals_start_absorbed (k : Nat) : ∀ (g n : Nat),
    processSignals ⟨some g, n⟩ (List.replicate k TurnSignal.turnStart) = ⟨some g, n⟩ := by
  induction k with
  | zero => intro g n; rfl
  | succ j ih =>
    intro g n
    simp [List.replicate, processSignals, startTurnStep, ih]

theorem reconnectRun_replicate (o : ConnectOutcome) (o' : ConnectOutcome)
    (h : connectAttempt o = Except.error o') :
    ∀ n : Nat, reconnectRun (List.replicate n o) = (n, false) := by
  intro n
  induction n with
  | zero => rfl
  | succ k ih => simp [List.replicate, reconnectRun, h, ih]

/-- The example control queue of the spec scenario:
user_message("a"), interrupt, user_message("b"). -/
def exampleQueue : List InMsg :=
  [⟨"user_message", [("content", "a")]⟩,
   ⟨"interrupt", []⟩,
   ⟨"user_message", [("content", "b")]⟩]

/-- Dot-separated variant of a control type string (underscores replaced by
dots), used to state which inbound spellings reach the control queue. -/
def dotVariant (t : String) : String :=
  String.mk (t.data.map (fun c => if c = '_' then '.' else c))

/-! ## Claim theorems -/

/-- C1 counterexample: in a session whose first `_run_claude_agent_sdk` call
sees the agent report `num_turns = 2` and is then restarted by a
`workflow_change` control message, the adapter's `_turn_count` takes the
values 0, 2, 0, 3: line 453 of wrapper.py resets the counter to 0 at the
start of the post-restart call, so the counter is reset to 0 and decrements
(2 to 0) across the restart, contradicting the claim that it continues from
its pre-restart value and only ever moves forward. -/
theorem turn_counter_restart_counterexample :
    sessionTurnTrace [([some 2], true), ([some 3], false)] = [0, 2, 0, 3] ∧
    ¬ List.Chain' (· ≤ ·) (sessionTurnTrace [([some 2], true), ([some 3], false)]) := by
  have e : sessionTurnTrace [([some 2], true), ([some 3], false)] = [0, 2, 0, 3] := rfl
  refine ⟨e, ?_⟩
  intro h
  rw [e] at h
  rcases List.chain'_cons.mp h with ⟨_, h3⟩
  rcases List.chain'_cons.mp h3 with ⟨h23, _⟩
  omega

/-- C1 (amended): within a single `_run_claude_agent_sdk` call the turn
counter only ever moves forward (each end-of-turn signal moves it to the
agent's `num_turns` only when that is strictly larger, never decrementing);
but every call, including the one entered after a `workflow_change` restart,
first resets the counter to 0 (wrapper.py line 453), so the session-wide
trace is the concatenation of per-run traces each of which restarts at 0. -/
theorem turn_counter_monotone_within_run (ev : List (Option Nat))
    (rest : List (List (Option Nat) × Bool)) (c : Nat) (o : Option Nat) :
    List.Chain' (· ≤ ·) (runTurnTrace ev) ∧
    (runTurnTrace ev).head? = some 0 ∧
    sessionTurnTrace ((ev, true) :: rest) = runTurnTrace ev ++ sessionTurnTrace rest ∧
    c ≤ updateTurnCount c o := by
  refine ⟨chain_le_scanl ev 0, scanl_head 0 ev, ?_, le_updateTurnCount c o⟩
  simp [sessionTurnTrace]

/-- C2: the shell's single counter starts at 0, `_send_message` increments
it by exactly one before assigning it to the outgoing message, and the seq
fields of the N envelopes emitted in one session are exactly 1..N in
emission order, with no gaps and no repeats. -/
theorem shell_seq_one_to_n (n m : Nat) :
    shellSendSeqs shellInitSeq n = List.range' 1 n ∧ shellSend m = (m + 1, m + 1) := by
  refine ⟨?_, rfl⟩
  have h := shellSendSeqs_eq_range n shellInitSeq
  simpa [shellInitSeq] using h

/-- C3: the interactive control loop dequeues messages strictly in arrival
order and handles each to completion before dequeuing the next: the
messages it processes are a prefix of the arrival list (so never reordered),
its action trace is exactly the concatenation of each processed message's
own handling actions in that order (so never interleaved), and on the queue
user_message("a"), interrupt, user_message("b") it handles all three in
exactly that order. -/
theorem control_loop_fifo (q : List InMsg) :
    (∃ n, loopProcessed q = q.take n) ∧
    loopActions q = (loopProcessed q).flatMap handleOne ∧
    loopProcessed exampleQueue = exampleQueue ∧
    loopActions exampleQueue =
      [LoopAction.query "a", LoopAction.interruptSent, LoopAction.query "b"] := by
  refine ⟨loopProcessed_take q, loopActions_eq_bind q, ?_, ?_⟩
  · decide
  · decide

/-- C4 counterexample: when the SDK run raises (an agent-stream failure),
`ClaudeCodeAdapter.run` catches the exception and returns a result whose
success flag is false; `RunnerShell.start` then emits "session.completed",
not "session.failed", because it keys only on whether `adapter.run` raised.
So a run whose outcome is failure does produce a session.completed message,
contradicting the claim. -/
theorem session_completed_on_failure_counterexample :
    adapterRun (SdkRunOutcome.raised "SDK stream failure") = Except.ok false ∧
    shellStart (Except.ok ()) (adapterRun (SdkRunOutcome.raised "SDK stream failure")) =
      [(MessageType.system_message, "session.started"),
       (MessageType.system_message, "session.completed")] := by
  exact ⟨rfl, rfl⟩

/-- C4 (amended): after emitting session.started and calling
`adapter.initialize` then `adapter.run`, the shell emits session.failed
exactly when initialize or run raises, and session.completed whenever both
return, regardless of the returned result's success flag; since
`ClaudeCodeAdapter.run` catches every exception and returns a
success=false result instead of raising, a failed run outcome still
produces session.completed. -/
theorem shell_lifecycle_by_exception (e : String) (b : Bool) (inner : SdkRunOutcome) :
    shellStart (Except.error e) (adapterRun inner) =
      [(MessageType.system_message, "session.started"),
       (MessageType.system_message, "session.failed")] ∧
    shellStart (Except.ok ()) (Except.error e) =
      [(MessageType.system_message, "session.started"),
       (MessageType.system_message, "session.failed")] ∧
    shellStart (Except.ok ()) (Except.ok b) =
      [(MessageType.system_message, "session.started"),
       (MessageType.system_message, "session.completed")] ∧
    (∃ sb : Bool, adapterRun inner = Except.ok sb) ∧
    adapterRun (SdkRunOutcome.raised e) = Except.ok false := by
  refine ⟨rfl, rfl, rfl, ?_, rfl⟩
  cases inner with
  | finished s => exact ⟨s, rfl⟩
  | raised m => exact ⟨false, rfl⟩

/-- C5 counterexample: a connect attempt made by `_reconnect` that is
rejected for authentication (HTTP 401) is caught by the reconnect loop and
retried rather than propagated: with attempt outcomes
[authRejected 401, authRejected 401, connected], `_reconnect` makes three
attempts and ends connected, so an auth rejection is silently retried,
contradicting the claim that every auth-rejected connect attempt propagates
its error instead of being retried. -/
theorem reconnect_retries_auth_counterexample :
    connectAttempt (ConnectOutcome.authRejected 401) =
      Except.error (ConnectOutcome.authRejected 401) ∧
    reconnectRun [ConnectOutcome.authRejected 401, ConnectOutcome.authRejected 401,
      ConnectOutcome.connected] = (3, true) := by
  exact ⟨rfl, rfl⟩

/-- C5 (amended): an auth rejection at the initial `connect()` called from
`start()` propagates to the caller after exactly one attempt, with no retry
loop; but the mid-session `_reconnect` loop catches every connect failure
without distinguishing rejection from unreachability, so during
reconnection both auth rejections and transient unreachability are retried
indefinitely while the transport is running (n failing outcomes produce n
attempts and no propagated error, for every n). -/
theorem connect_auth_propagates_from_start (s n : Nat) (m : String) :
    startConnect (ConnectOutcome.authRejected s) =
      (1, Except.error (ConnectOutcome.authRejected s)) ∧
    reconnectRun (List.replicate n (ConnectOutcome.authRejected s)) = (n, false) ∧
    reconnectRun (List.replicate n (ConnectOutcome.unreachable m)) = (n, false) := by
  refine ⟨rfl, ?_, ?_⟩
  · exact reconnectRun_replicate (ConnectOutcome.authRejected s)
      (ConnectOutcome.authRejected s) rfl n
  · exact reconnectRun_replicate (ConnectOutcome.unreachable m)
      (ConnectOutcome.unreachable m) rfl n

/-- C6: the observability layer tracks whether a turn is already open and
ignores duplicate turn-start signals until the turn-end signal is observed:
a single logical turn whose stream emits k+1 turn-start signals (one per
streamed AssistantMessage chunk) followed by one turn-end produces exactly
one turn trace, and the duplicates remain ignored even before the turn-end
arrives. -/
theorem duplicate_turn_start_once (k : Nat) :
    (processSignals obsInit
      (List.replicate (k + 1) TurnSignal.turnStart ++ [TurnSignal.turnEnd])).tracesCreated = 1 ∧
    (processSignals obsInit (List.replicate (k + 1) TurnSignal.turnStart)).tracesCreated = 1 := by
  have hrep : processSignals obsInit (List.replicate (k + 1) TurnSignal.turnStart) =
      ⟨some 0, 1⟩ := by
    simp only [List.replicate, processSignals]
    have : startTurnStep obsInit = ⟨some 0, 1⟩ := rfl
    rw [this, processSignals_start_absorbed k 0 1]
  constructor
  · rw [processSignals_append, hrep]
    rfl
  · rw [hrep]

/-- C7: when the first SDK-client creation attempt fails with an error the
code classifies as a continuation failure (its lowercased text contains
"no conversation found" or "session", i.e. the engine reports no resumable
state), the adapter makes exactly one fallback attempt with
continue_conversation disabled and emits the visible degradation message,
and the creation block fails only if that single fallback attempt also
fails; an error not so classified is re-raised immediately with no fallback
and no degradation message, and a successful first attempt makes exactly
one attempt. -/
theorem continuation_fallback_once (e eOther : String) (second : Except String Unit)
    (hres : isResumeError e = true) (hother : isResumeError eOther = false) :
    (createClientWithFallback (Except.error e) second).attempts = 2 ∧
    (createClientWithFallback (Except.error e) second).fallbackUsed = true ∧
    ((createClientWithFallback (Except.error e) second).outcome = Except.ok true ↔
      second = Except.ok ()) ∧
    (∀ e2, second = Except.error e2 →
      (createClientWithFallback (Except.error e) second).outcome = Except.error e2) ∧
    createClientWithFallback (Except.error eOther) second =
      ⟨1, false, Except.error eOther⟩ ∧
    createClientWithFallback (Except.ok ()) second = ⟨1, false, Except.ok false⟩ := by
  refine ⟨?_, ?_, ?_, ?_, ?_, rfl⟩
  · cases second <;> simp [createClientWithFallback, hres]
  · cases second <;> simp [createClientWithFallback, hres]
  · cases second with
    | ok u => cases u; simp [createClientWithFallback, hres]
    | error e2 => simp [createClientWithFallback, hres]
  · intro e2 h
    subst h
    simp [createClientWithFallback, hres]
  · simp [createClientWithFallback, hother]

/-- C7 witness: a concrete continuation failure ("No conversation found
with ID abc123") triggers exactly one fallback attempt and succeeds, and a
concrete unrelated error ("quota exceeded") is not classified as a
continuation failure. -/
theorem continuation_fallback_once_witness :
    isResumeError "No conversation found with ID abc123" = true ∧
    isResumeError "quota exceeded" = false ∧
    (createClientWithFallback (Except.error "No conversation found with ID abc123")
      (Except.ok ())).attempts = 2 := by
  refine ⟨by decide, by decide, ?_⟩
  exact (continuation_fallback_once "No conversation found with ID abc123" "quota exceeded"
    (Except.ok ()) (by decide) (by decide)).1

/-- C8: for a repo whose directory already exists in a session that is not
a continuation, workspace preparation first reconfigures the origin remote
(git remote set-url origin) and then issues git fetch, git checkout and git
reset --hard, in exactly that order, and those are the only
fetch/checkout/reset commands issued; this holds in both the multi-repo
and the single-repo legacy flow. -/
theorem workspace_reset_cmd_order (authUrl branch repoDir userName userEmail : String)
    (outputUrl : Option String) :
    (∃ rest, prepareRepoCmds true false authUrl branch repoDir userName userEmail outputUrl =
      ["git", "remote", "set-url", "origin", authUrl] ::
      ["git", "fetch", "origin", branch] ::
      ["git", "checkout", branch] ::
      ["git", "reset", "--hard", "origin/" ++ branch] :: rest) ∧
    (prepareRepoCmds true false authUrl branch repoDir userName userEmail
        outputUrl).filter isFetchCheckoutReset =
      [["git", "fetch", "origin", branch],
       ["git", "checkout", branch],
       ["git", "reset", "--hard", "origin/" ++ branch]] ∧
    (prepareSingleRepoCmds true false authUrl branch repoDir userName userEmail
        outputUrl).filter isFetchCheckoutReset =
      [["git", "fetch", "origin", branch],
       ["git", "checkout", branch],
       ["git", "reset", "--hard", "origin/" ++ branch]] := by
  cases outputUrl with
  | none => exact ⟨⟨_, rfl⟩, rfl, rfl⟩
  | some u => exact ⟨⟨_, rfl⟩, rfl, rfl⟩

/-- C9: for a repo whose directory already exists in a continuation
session, workspace preparation issues zero git fetch and zero git reset
commands (local edits survive) while issuing exactly one
git remote set-url command to refresh credentials; this holds in both the
multi-repo and the single-repo legacy flow. -/
theorem workspace_continuation_preserves (authUrl branch repoDir userName userEmail : String)
    (outputUrl : Option String) :
    (prepareRepoCmds true true authUrl branch repoDir userName userEmail
        outputUrl).filter isFetchOrReset = [] ∧
    (prepareRepoCmds true true authUrl branch repoDir userName userEmail
        outputUrl).filter isRemoteSetUrl =
      [["git", "remote", "set-url", "origin", authUrl]] ∧
    (prepareSingleRepoCmds true true authUrl branch repoDir userName userEmail
        outputUrl).filter isFetchOrReset = [] ∧
    (prepareSingleRepoCmds true true authUrl branch repoDir userName userEmail
        outputUrl).filter isRemoteSetUrl =
      [["git", "remote", "set-url", "origin", authUrl]] := by
  cases outputUrl with
  | none => exact ⟨rfl, rfl, rfl, rfl⟩
  | some u => exact ⟨rfl, rfl, rfl, rfl⟩

/-- C10: `handle_message` enqueues an inbound frame exactly when its type
is one of the eight underscore-form control types; every enqueued type is
already in underscore form, so the interactive loop's dot-to-underscore
normalization is the identity on everything that reaches the queue; the
dot-variant spelling of every multi-word control type (in particular
"user.message") is never enqueued and is silently dropped at the adapter
boundary. -/
theorem handle_message_underscore_only :
    (∀ t : String, handleMessageEnqueues t = true ↔ t ∈ allowedControlTypes) ∧
    (allowedControlTypes.all (fun t => normalizeType t == t)) = true ∧
    (allowedControlTypes.all
      (fun t => (dotVariant t == t) || (handleMessageEnqueues (dotVariant t) == false))) = true ∧
    handleMessageEnqueues "user.message" = false ∧
    handleMessageEnqueues "user_message" = true := by
  refine ⟨fun t => ?_, by decide, by decide, by decide, by decide⟩
  constructor
  · intro h
    exact List.mem_of_elem_eq_true h
  · intro h
    exact List.elem_eq_true_of_mem h
